import Mathlib

/-!
# Verification of GTK shortcut triggers (gtk/gtkshortcuttrigger.c)

A shallow embedding of the shortcut-trigger predicate objects:
the three trigger variants (never, keyval, alternative), their
evaluation (`trigger`) and printing (`print`) virtual functions,
the keyval normalization performed at construction and evaluation,
the type-checked accessors, and a heap model of the reference-counted
lifecycle (`unref` / per-variant `finalize`, and the alternative
constructor's argument validation).

External collaborators that are part of the wider toolkit but not of
the given source file (`gdk_keyval_to_lower`, the `GdkEvent` accessors,
`gtk_accelerator_name`, the keysym constants) are modelled from the
specification, each marked as such in its doc comment.
-/

/-! ## Keysym constants and key-value normalization -/

/-- Modelled from the spec: the tab key code (`GDK_KEY_Tab`, a keysym
constant from the toolkit's key definitions, not part of the given file). -/
def GDK_KEY_Tab : Nat := 0xFF09

/-- Modelled from the spec: the legacy left-tab key code
(`GDK_KEY_ISO_Left_Tab`, a keysym constant from the toolkit's key
definitions, not part of the given file). -/
def GDK_KEY_ISO_Left_Tab : Nat := 0xFE20

/-- Modelled from the spec: the external key-value normalization table
(`gdk_keyval_to_lower`, part of the windowing layer, not of the given
file): maps raw key codes to their canonical lowercase form. Uppercase
letter codes (ASCII `A`-`Z` and Latin-1 `À`-`Þ` except the multiply
sign) map to the corresponding lowercase code; every other code is
already canonical and maps to itself. -/
def gdk_keyval_to_lower (keyval : Nat) : Nat :=
  if 0x41 ≤ keyval ∧ keyval ≤ 0x5A then keyval + 0x20
  else if 0xC0 ≤ keyval ∧ keyval ≤ 0xDE ∧ keyval ≠ 0xD7 then keyval + 0x20
  else keyval

/-- The key-value normalization rule that `gtk_keyval_trigger_new` and
`gtk_keyval_trigger_trigger` both inline: canonicalize the legacy
left-tab code to the tab code, otherwise case-fold to lowercase. -/
def keyval_normalize (keyval : Nat) : Nat :=
  if keyval = GDK_KEY_ISO_Left_Tab then GDK_KEY_Tab
  else gdk_keyval_to_lower keyval

/-! ## The event abstraction (external collaborator) -/

/-- Modelled from the spec: event-type classification of the external
event object; the evaluator only distinguishes "key pressed" from
everything else. -/
inductive GdkEventType
  | keyPress
  | keyRelease
  | buttonPress
  | other
deriving DecidableEq, Repr

/-- Modelled from the spec: the external input-event abstraction,
providing event-type classification, modifier-state extraction and
key-value extraction. -/
structure GdkEvent where
  event_type : GdkEventType
  modifier_state : Nat
  keyval : Nat
deriving DecidableEq, Repr

/-- Modelled from the spec: `gdk_event_get_event_type`. -/
def gdk_event_get_event_type (event : GdkEvent) : GdkEventType :=
  event.event_type

/-- Modelled from the spec: `gdk_event_get_modifier_state`. -/
def gdk_event_get_modifier_state (event : GdkEvent) : Nat :=
  event.modifier_state

/-- Modelled from the spec: `gdk_key_event_get_keyval`. -/
def gdk_key_event_get_keyval (event : GdkEvent) : Nat :=
  event.keyval

/-! ## The trigger variants (pure view)

`struct _GtkShortcutTrigger` plus the three concrete variant structs
form a closed tagged variant; the class pointer is the tag. The pure
evaluation/printing behavior is embedded as an inductive type; the
reference-count field belongs to the heap model further down. -/

/-- The three concrete trigger variants. `keyval`/`modifiers` are the
fields of `struct _GtkKeyvalTrigger`; `first`/`second` the sub-triggers
of `struct _GtkAlternativeTrigger`. -/
inductive Trigger
  | never
  | keyval (keyval : Nat) (modifiers : Nat)
  | alternative (first second : Trigger)
deriving DecidableEq, Repr

/-- `GtkShortcutTriggerType`: the `trigger_type` tag stored in each
class structure. -/
inductive GtkShortcutTriggerType
  | never
  | keyval
  | alternative
deriving DecidableEq, Repr

/-- `gtk_shortcut_trigger_get_trigger_type`: returns the class tag. -/
def gtk_shortcut_trigger_get_trigger_type : Trigger → GtkShortcutTriggerType
  | Trigger.never => GtkShortcutTriggerType.never
  | Trigger.keyval _ _ => GtkShortcutTriggerType.keyval
  | Trigger.alternative _ _ => GtkShortcutTriggerType.alternative

/-! ## Evaluation (`trigger` virtual functions) -/

/-- `gtk_never_trigger_trigger`: returns FALSE. -/
def gtk_never_trigger_trigger (_event : GdkEvent) : Bool :=
  false

/-- `gtk_keyval_trigger_trigger`: false unless the event is a key
press; then normalizes the event's keyval (left-tab canonicalized to
tab, otherwise lowered) and compares keyval and modifier state with the
stored fields for exact equality. -/
def gtk_keyval_trigger_trigger (self_keyval self_modifiers : Nat)
    (event : GdkEvent) : Bool :=
  if gdk_event_get_event_type event ≠ GdkEventType.keyPress then false
  else
    let modifiers := gdk_event_get_modifier_state event
    let keyval0 := gdk_key_event_get_keyval event
    let keyval :=
      if keyval0 = GDK_KEY_ISO_Left_Tab then GDK_KEY_Tab
      else gdk_keyval_to_lower keyval0
    decide (keyval = self_keyval) && decide (modifiers = self_modifiers)

/-- `gtk_shortcut_trigger_trigger`: dispatch through the class table;
the `Trigger.alternative` arm is `gtk_alternative_trigger_trigger`,
which returns TRUE as soon as the first sub-trigger matched, otherwise
tries the second. -/
def gtk_shortcut_trigger_trigger : Trigger → GdkEvent → Bool
  | Trigger.never, event => gtk_never_trigger_trigger event
  | Trigger.keyval k m, event => gtk_keyval_trigger_trigger k m event
  | Trigger.alternative a b, event =>
      if gtk_shortcut_trigger_trigger a event then true
      else if gtk_shortcut_trigger_trigger b event then true
      else false

/-! ## Construction and accessors -/

/-- `gtk_keyval_trigger_new`: stores the keyval normalized ("We store
keyvals as lower key": left-tab canonicalized to tab, otherwise
lowered) and the modifiers verbatim. -/
def gtk_keyval_trigger_new (keyval : Nat) (modifiers : Nat) : Trigger :=
  Trigger.keyval
    (if keyval = GDK_KEY_ISO_Left_Tab then GDK_KEY_Tab
     else gdk_keyval_to_lower keyval)
    modifiers

/-- `gtk_keyval_trigger_get_modifiers`: the stored modifiers; the
`g_return_val_if_fail` type check yields the sentinel 0 on any
non-keyval trigger. -/
def gtk_keyval_trigger_get_modifiers : Trigger → Nat
  | Trigger.keyval _ m => m
  | _ => 0

/-- `gtk_keyval_trigger_get_keyval`: the stored keyval; the
`g_return_val_if_fail` type check yields the sentinel 0 on any
non-keyval trigger. -/
def gtk_keyval_trigger_get_keyval : Trigger → Nat
  | Trigger.keyval k _ => k
  | _ => 0

/-! ## Printing (`print` virtual functions) and `to_string`

`GString` accumulation is embedded as appending to a `String`. -/

/-- Modelled from the spec: the external accelerator-name formatter
(`gtk_accelerator_name`, part of the accel-group machinery, not of the
given file): formats a (keyval, modifiers) pair as text such as
"<Control>a"; modelled as a plain rendering of the pair. -/
def gtk_accelerator_name (keyval : Nat) (modifiers : Nat) : String :=
  "<" ++ toString modifiers ++ ">" ++ toString keyval

/-- `gtk_never_trigger_print`: appends the fixed text "<never>". -/
def gtk_never_trigger_print (string : String) : String :=
  string ++ "<never>"

/-- `gtk_keyval_trigger_print`: appends the accelerator name of the
stored (keyval, modifiers) pair. -/
def gtk_keyval_trigger_print (self_keyval self_modifiers : Nat)
    (string : String) : String :=
  string ++ gtk_accelerator_name self_keyval self_modifiers

/-- `gtk_shortcut_trigger_print`: dispatch through the class table;
the `Trigger.alternative` arm is `gtk_alternative_trigger_print`,
which prints the first sub-trigger, appends ", ", then prints the
second sub-trigger. -/
def gtk_shortcut_trigger_print : Trigger → String → String
  | Trigger.never, string => gtk_never_trigger_print string
  | Trigger.keyval k m, string => gtk_keyval_trigger_print k m string
  | Trigger.alternative a b, string =>
      gtk_shortcut_trigger_print b
        (gtk_shortcut_trigger_print a string ++ ", ")

/-- `gtk_shortcut_trigger_to_string`: prints into a fresh empty
string. -/
def gtk_shortcut_trigger_to_string (self : Trigger) : String :=
  gtk_shortcut_trigger_print self ""

/-! ## Instrumented evaluation

`trigger_trace` computes the same result as
`gtk_shortcut_trigger_trigger` and additionally records, in call
order, every trigger whose `trigger` virtual function is invoked, so
that short-circuiting is observable. -/

/-- Instrumented evaluator: the result of
`gtk_shortcut_trigger_trigger` together with the list of triggers
whose evaluator was invoked, in invocation order. -/
def trigger_trace : Trigger → GdkEvent → Bool × List Trigger
  | Trigger.never, _ => (false, [Trigger.never])
  | Trigger.keyval k m, event =>
      (gtk_keyval_trigger_trigger k m event, [Trigger.keyval k m])
  | Trigger.alternative a b, event =>
      if (trigger_trace a event).1 then
        (true, Trigger.alternative a b :: (trigger_trace a event).2)
      else
        ((trigger_trace b event).1,
         Trigger.alternative a b ::
           ((trigger_trace a event).2 ++ (trigger_trace b event).2))

/-! ## The reference-counted lifecycle (heap model)

Triggers live on a heap of id-addressed objects, each carrying the
`ref_count` field of `struct _GtkShortcutTrigger` and its variant
payload; an alternative's payload holds the ids of its two owned
sub-triggers. `gtk_shortcut_trigger_unref` decrements the count and,
when it reaches zero, runs the variant's `finalize` and frees the
object; `gtk_alternative_trigger_finalize` unrefs both sub-triggers,
which may cascade. Recursion is bounded by explicit fuel. -/

/-- Heap address of a trigger object. -/
abbrev TriggerId := Nat

/-- The variant payload of a heap-resident trigger object; for the
alternative variant, the ids of the two owned sub-triggers. -/
inductive TriggerPayload
  | never
  | keyval (keyval : Nat) (modifiers : Nat)
  | alternative (first second : TriggerId)
deriving DecidableEq, Repr

/-- A heap-resident `GtkShortcutTrigger`: its `ref_count` and variant
payload. -/
structure TriggerObj where
  ref_count : Nat
  payload : TriggerPayload
deriving DecidableEq, Repr

/-- The heap: an association of ids to live trigger objects. -/
abbrev Heap := List (TriggerId × TriggerObj)

/-- Look up the object at an id. -/
def hlookup : Heap → TriggerId → Option TriggerObj
  | [], _ => none
  | p :: rest, id => if p.1 = id then some p.2 else hlookup rest id

/-- Overwrite the object stored at an id (no effect on absent ids). -/
def hset (heap : Heap) (id : TriggerId) (obj : TriggerObj) : Heap :=
  heap.map (fun p => if p.1 = id then (id, obj) else p)

/-- Free the object stored at an id. -/
def hremove (heap : Heap) (id : TriggerId) : Heap :=
  heap.filter (fun p => p.1 != id)

/-- `gtk_shortcut_trigger_unref`: atomically decrement the reference
count; on reaching zero run the variant's `finalize`, then free the
structure. `gtk_alternative_trigger_finalize` unrefs `first` then
`second` (possibly cascading); `gtk_keyval_trigger_finalize` does
nothing; `gtk_never_trigger_finalize` must never be reached (the
singleton's count never drops to zero), so no payload releases happen
there either. Recursion depth is bounded by the explicit fuel. -/
def gtk_shortcut_trigger_unref : Nat → Heap → TriggerId → Heap
  | 0, heap, _ => heap
  | Nat.succ fuel, heap, id =>
    match hlookup heap id with
    | none => heap
    | some self =>
      if self.ref_count ≤ 1 then
        match self.payload with
        | TriggerPayload.alternative first second =>
            hremove
              (gtk_shortcut_trigger_unref fuel
                (gtk_shortcut_trigger_unref fuel heap first) second) id
        | _ => hremove heap id
      else
        hset heap id { self with ref_count := self.ref_count - 1 }

/-- `GTK_IS_SHORTCUT_TRIGGER`: validity of a trigger handle; `none` is
the NULL/invalid handle, and a non-null handle must address a live
object. -/
def GTK_IS_SHORTCUT_TRIGGER (heap : Heap) : Option TriggerId → Bool
  | none => false
  | some id => (hlookup heap id).isSome

/-- `gtk_alternative_trigger_new`: the two `g_return_val_if_fail`
guards reject an invalid `first` or `second` by returning NULL without
touching the heap; otherwise a fresh object with reference count 1 is
allocated whose payload owns the two argument references. -/
def gtk_alternative_trigger_new (heap : Heap) (newId : TriggerId)
    (first second : Option TriggerId) : Heap × Option TriggerId :=
  if GTK_IS_SHORTCUT_TRIGGER heap first = false then (heap, none)
  else if GTK_IS_SHORTCUT_TRIGGER heap second = false then (heap, none)
  else
    match first, second with
    | some f, some s =>
        ((newId, ⟨1, TriggerPayload.alternative f s⟩) :: heap, some newId)
    | _, _ => (heap, none)

/-! ## Helper lemmas -/

theorem gdk_keyval_to_lower_idem (k : Nat) :
    gdk_keyval_to_lower (gdk_keyval_to_lower k) = gdk_keyval_to_lower k := by
  unfold gdk_keyval_to_lower
  split_ifs <;> omega

theorem gdk_keyval_to_lower_ne_left_tab (k : Nat)
    (h : k ≠ GDK_KEY_ISO_Left_Tab) :
    gdk_keyval_to_lower k ≠ GDK_KEY_ISO_Left_Tab := by
  unfold gdk_keyval_to_lower GDK_KEY_ISO_Left_Tab at *
  split_ifs <;> omega

theorem keyval_trigger_eval_iff (K M : Nat) (e : GdkEvent) :
    gtk_keyval_trigger_trigger K M e = true ↔
      (gdk_event_get_event_type e = GdkEventType.keyPress ∧
       keyval_normalize (gdk_key_event_get_keyval e) = K ∧
       gdk_event_get_modifier_state e = M) := by
  unfold gtk_keyval_trigger_trigger keyval_normalize
  by_cases h : gdk_event_get_event_type e = GdkEventType.keyPress <;>
    simp [h, and_comm]

theorem eval_alternative_or (a b : Trigger) (e : GdkEvent) :
    gtk_shortcut_trigger_trigger (Trigger.alternative a b) e =
      (gtk_shortcut_trigger_trigger a e || gtk_shortcut_trigger_trigger b e) := by
  cases ha : gtk_shortcut_trigger_trigger a e <;>
    cases hb : gtk_shortcut_trigger_trigger b e <;>
      simp [gtk_shortcut_trigger_trigger, ha, hb]

theorem trigger_trace_fst (t : Trigger) (e : GdkEvent) :
    (trigger_trace t e).1 = gtk_shortcut_trigger_trigger t e := by
  induction t with
  | never => rfl
  | keyval k m => rfl
  | alternative a b iha ihb =>
    rw [eval_alternative_or]
    simp only [trigger_trace]
    rw [iha, ihb]
    cases gtk_shortcut_trigger_trigger a e <;> simp

/-! ## Claims -/

/-- C1: For every keyval trigger with stored keyval `K` and stored
modifiers `M`, and every event `e`, evaluation returns true iff `e` is
a key-press event, the event's normalized key value (left-tab
canonicalized to tab, otherwise lowercase-folded) equals `K`, and the
event's modifier state equals `M` exactly; for any non-key-press event
it returns false. -/
theorem C1_keyval_trigger_evaluate_iff (K M : Nat) (e : GdkEvent) :
    gtk_shortcut_trigger_trigger (Trigger.keyval K M) e = true ↔
      (gdk_event_get_event_type e = GdkEventType.keyPress ∧
       keyval_normalize (gdk_key_event_get_keyval e) = K ∧
       gdk_event_get_modifier_state e = M) :=
  keyval_trigger_eval_iff K M e

/-- C2: For every alternative trigger over `a` and `b` and every event
`e`, evaluation is the boolean OR of the sub-evaluations, and it
short-circuits: when `a` already matched, the invocation trace of the
alternative is the alternative itself followed by `a`'s trace only —
`b`'s evaluator is never invoked. -/
theorem C2_alternative_or_short_circuit (a b : Trigger) (e : GdkEvent) :
    gtk_shortcut_trigger_trigger (Trigger.alternative a b) e =
      (gtk_shortcut_trigger_trigger a e || gtk_shortcut_trigger_trigger b e) ∧
    (gtk_shortcut_trigger_trigger a e = true →
      trigger_trace (Trigger.alternative a b) e =
        (true, Trigger.alternative a b :: (trigger_trace a e).2)) := by
  refine ⟨eval_alternative_or a b e, fun h => ?_⟩
  simp only [trigger_trace]
  rw [trigger_trace_fst, h]
  simp

/-- Witness for C2 at a concrete matching first sub-trigger: the trace
contains no evaluation of the second sub-trigger. -/
theorem C2_alternative_or_short_circuit_witness :
    trigger_trace
        (Trigger.alternative (Trigger.keyval 0x61 0) Trigger.never)
        ⟨GdkEventType.keyPress, 0, 0x61⟩ =
      (true, [Trigger.alternative (Trigger.keyval 0x61 0) Trigger.never,
              Trigger.keyval 0x61 0]) := by
  rw [(C2_alternative_or_short_circuit (Trigger.keyval 0x61 0) Trigger.never
        ⟨GdkEventType.keyPress, 0, 0x61⟩).2 (by decide)]
  rfl

/-- C3: Evaluation of the never trigger returns false on every
event. -/
theorem C3_never_trigger_evaluate_false (e : GdkEvent) :
    gtk_shortcut_trigger_trigger Trigger.never e = false :=
  rfl

/-- C4: The keyval-trigger constructor stores the normalized keyval
(tab when given the legacy left-tab code, otherwise the
lowercase-folded code) and the modifiers verbatim, as observed through
the two accessors. -/
theorem C4_keyval_trigger_new_stores_normalized (K M : Nat) :
    gtk_keyval_trigger_get_keyval (gtk_keyval_trigger_new K M) =
        keyval_normalize K ∧
    gtk_keyval_trigger_get_modifiers (gtk_keyval_trigger_new K M) = M := by
  constructor
  · simp [gtk_keyval_trigger_new, gtk_keyval_trigger_get_keyval,
      keyval_normalize]
  · rfl

/-- C5: The key-value normalization shared by the keyval-trigger
constructor and its evaluator is idempotent, and it sends the legacy
left-tab code and the tab code to the same value. -/
theorem C5_keyval_normalize_idempotent (K : Nat) :
    keyval_normalize (keyval_normalize K) = keyval_normalize K ∧
    keyval_normalize GDK_KEY_ISO_Left_Tab = keyval_normalize GDK_KEY_Tab := by
  refine ⟨?_, by decide⟩
  by_cases h : K = GDK_KEY_ISO_Left_Tab
  · subst h; decide
  · unfold keyval_normalize
    rw [if_neg h, if_neg (gdk_keyval_to_lower_ne_left_tab K h),
      gdk_keyval_to_lower_idem]

/-- C6: Alternative composition is associative in matching outcome:
both nestings evaluate to the OR of the three sub-evaluations. -/
theorem C6_alternative_assoc (a b c : Trigger) (e : GdkEvent) :
    gtk_shortcut_trigger_trigger
        (Trigger.alternative (Trigger.alternative a b) c) e =
      gtk_shortcut_trigger_trigger
        (Trigger.alternative a (Trigger.alternative b c)) e ∧
    gtk_shortcut_trigger_trigger
        (Trigger.alternative (Trigger.alternative a b) c) e =
      (gtk_shortcut_trigger_trigger a e || gtk_shortcut_trigger_trigger b e ||
        gtk_shortcut_trigger_trigger c e) := by
  simp [eval_alternative_or, Bool.or_assoc]

/-- C7 counterexample: the never trigger's `print` renders the fixed
text "<never>", not "never matches". -/
theorem C7_counterexample_never_print_text :
    gtk_shortcut_trigger_to_string Trigger.never = "<never>" ∧
    gtk_shortcut_trigger_to_string Trigger.never ≠ "never matches" := by
  constructor
  · rfl
  · decide

/-- C7 (amended): the describe operation on the never trigger appends
the fixed placeholder text "<never>" to the output string. -/
theorem C7_amended_never_print (s : String) :
    gtk_shortcut_trigger_print Trigger.never s = s ++ "<never>" :=
  rfl

/-- C8: Called on any trigger whose type tag is not the keyval tag,
both keyval accessors return the sentinel 0. -/
theorem C8_accessor_type_mismatch_sentinel (t : Trigger)
    (h : gtk_shortcut_trigger_get_trigger_type t ≠
      GtkShortcutTriggerType.keyval) :
    gtk_keyval_trigger_get_modifiers t = 0 ∧
    gtk_keyval_trigger_get_keyval t = 0 := by
  cases t with
  | never => exact ⟨rfl, rfl⟩
  | keyval k m => exact absurd rfl h
  | alternative a b => exact ⟨rfl, rfl⟩

/-- Witness for C8 on the never trigger and on an alternative
trigger. -/
theorem C8_accessor_type_mismatch_sentinel_witness :
    (gtk_keyval_trigger_get_modifiers Trigger.never = 0 ∧
     gtk_keyval_trigger_get_keyval Trigger.never = 0) ∧
    (gtk_keyval_trigger_get_modifiers
        (Trigger.alternative Trigger.never Trigger.never) = 0 ∧
     gtk_keyval_trigger_get_keyval
        (Trigger.alternative Trigger.never Trigger.never) = 0) :=
  ⟨C8_accessor_type_mismatch_sentinel Trigger.never (by decide),
   C8_accessor_type_mismatch_sentinel
     (Trigger.alternative Trigger.never Trigger.never) (by decide)⟩

/-! ## Heap lemmas -/

theorem hlookup_hset_self (heap : Heap) (id : TriggerId)
    (obj x : TriggerObj) (h : hlookup heap id = some x) :
    hlookup (hset heap id obj) id = some obj := by
  induction heap with
  | nil => simp [hlookup] at h
  | cons p rest ih =>
    by_cases hp : p.1 = id
    · simp [hset, hlookup, hp]
    · simp only [hlookup, hp, if_false] at h
      simpa [hset, hlookup, hp] using ih h

theorem hlookup_hset_ne (heap : Heap) (id j : TriggerId)
    (obj : TriggerObj) (hj : j ≠ id) :
    hlookup (hset heap id obj) j = hlookup heap j := by
  induction heap with
  | nil => rfl
  | cons p rest ih =>
    simp only [hset, List.map_cons] at ih ⊢
    by_cases hp : p.1 = id
    · simp only [hlookup, hp, eq_self_iff_true, ite_true,
        if_neg (Ne.symm hj)]
      exact ih
    · by_cases hpj : p.1 = j
      · simp only [hlookup, if_neg hp, if_pos hpj]
      · simp only [hlookup, if_neg hp, if_neg hpj]
        exact ih

theorem hlookup_hremove_self (heap : Heap) (id : TriggerId) :
    hlookup (hremove heap id) id = none := by
  induction heap with
  | nil => rfl
  | cons p rest ih =>
    by_cases hp : p.1 = id <;> simp [hremove, hlookup, hp] at ih ⊢ <;>
      exact ih

theorem hlookup_hremove_ne (heap : Heap) (id j : TriggerId) (hj : j ≠ id) :
    hlookup (hremove heap id) j = hlookup heap j := by
  induction heap with
  | nil => rfl
  | cons p rest ih =>
    simp only [hremove, List.filter_cons] at ih ⊢
    by_cases hp : p.1 = id
    · simp only [hp, bne_self_eq_false, Bool.false_eq_true, if_false,
        hlookup, if_neg (Ne.symm hj)]
      exact ih
    · simp only [bne_iff_ne, ne_eq, hp, not_false_eq_true, if_true,
        hlookup]
      by_cases hpj : p.1 = j
      · simp only [if_pos hpj]
      · simp only [if_neg hpj]
        exact ih

/-- A non-last release (count at least 2) only decrements the count:
no finalize, no cascade. -/
theorem unref_decrement (fuel : Nat) (heap : Heap) (id : TriggerId)
    (obj : TriggerObj) (h : hlookup heap id = some obj)
    (h2 : 2 ≤ obj.ref_count) :
    gtk_shortcut_trigger_unref (fuel + 1) heap id =
      hset heap id { obj with ref_count := obj.ref_count - 1 } := by
  simp only [gtk_shortcut_trigger_unref, h]
  rw [if_neg (by omega)]

/-- C9: Releasing the sole reference of an alternative trigger over
sub-triggers `a` and `b` runs its finalize, which releases exactly one
reference on `a` and one on `b` (here in the non-cascading case, with
both counts staying positive): the alternative is freed, each
sub-trigger's count drops by exactly one, and every other object on
the heap is untouched. -/
theorem C9_alternative_unref_releases_children (heap : Heap) (fuel : Nat)
    (altId a b : TriggerId) (oa ob : TriggerObj)
    (hAlt : hlookup heap altId = some ⟨1, TriggerPayload.alternative a b⟩)
    (ha : hlookup heap a = some oa) (hb : hlookup heap b = some ob)
    (ha2 : 2 ≤ oa.ref_count) (hb2 : 2 ≤ ob.ref_count)
    (hab : a ≠ b) (haAlt : a ≠ altId) (hbAlt : b ≠ altId) :
    hlookup (gtk_shortcut_trigger_unref (fuel + 2) heap altId) altId =
      none ∧
    hlookup (gtk_shortcut_trigger_unref (fuel + 2) heap altId) a =
      some { oa with ref_count := oa.ref_count - 1 } ∧
    hlookup (gtk_shortcut_trigger_unref (fuel + 2) heap altId) b =
      some { ob with ref_count := ob.ref_count - 1 } ∧
    ∀ j, j ≠ altId → j ≠ a → j ≠ b →
      hlookup (gtk_shortcut_trigger_unref (fuel + 2) heap altId) j =
        hlookup heap j := by
  have step0 : gtk_shortcut_trigger_unref (fuel + 2) heap altId =
      hremove
        (gtk_shortcut_trigger_unref (fuel + 1)
          (gtk_shortcut_trigger_unref (fuel + 1) heap a) b) altId := by
    show gtk_shortcut_trigger_unref ((fuel + 1) + 1) heap altId = _
    simp only [gtk_shortcut_trigger_unref, hAlt]
    rw [if_pos (le_refl 1)]
  have stepA : gtk_shortcut_trigger_unref (fuel + 1) heap a =
      hset heap a { oa with ref_count := oa.ref_count - 1 } :=
    unref_decrement fuel heap a oa ha ha2
  have hbA : hlookup (hset heap a { oa with ref_count := oa.ref_count - 1 })
      b = some ob := by
    rw [hlookup_hset_ne _ _ _ _ (Ne.symm hab)]
    exact hb
  have stepB : gtk_shortcut_trigger_unref (fuel + 1)
      (hset heap a { oa with ref_count := oa.ref_count - 1 }) b =
      hset (hset heap a { oa with ref_count := oa.ref_count - 1 }) b
        { ob with ref_count := ob.ref_count - 1 } :=
    unref_decrement fuel _ b ob hbA hb2
  rw [step0, stepA, stepB]
  refine ⟨hlookup_hremove_self _ _, ?_, ?_, ?_⟩
  · rw [hlookup_hremove_ne _ _ _ haAlt, hlookup_hset_ne _ _ _ _ hab]
    exact hlookup_hset_self _ _ _ _ ha
  · rw [hlookup_hremove_ne _ _ _ hbAlt]
    exact hlookup_hset_self _ _ _ _ hbA
  · intro j hjAlt hja hjb
    rw [hlookup_hremove_ne _ _ _ hjAlt, hlookup_hset_ne _ _ _ _ hjb,
      hlookup_hset_ne _ _ _ _ hja]

/-- Witness for C9 on a concrete four-object heap: releasing the
alternative at id 0 frees it, decrements the counts of its children at
ids 1 and 2 by exactly one, and leaves the unrelated object at id 3
untouched. -/
theorem C9_alternative_unref_releases_children_witness :
    hlookup (gtk_shortcut_trigger_unref 2
        [(0, ⟨1, TriggerPayload.alternative 1 2⟩),
         (1, ⟨2, TriggerPayload.keyval 0x61 0⟩),
         (2, ⟨3, TriggerPayload.never⟩),
         (3, ⟨5, TriggerPayload.keyval 0x62 4⟩)] 0) 0 = none ∧
    hlookup (gtk_shortcut_trigger_unref 2
        [(0, ⟨1, TriggerPayload.alternative 1 2⟩),
         (1, ⟨2, TriggerPayload.keyval 0x61 0⟩),
         (2, ⟨3, TriggerPayload.never⟩),
         (3, ⟨5, TriggerPayload.keyval 0x62 4⟩)] 0) 1 =
      some ⟨1, TriggerPayload.keyval 0x61 0⟩ ∧
    hlookup (gtk_shortcut_trigger_unref 2
        [(0, ⟨1, TriggerPayload.alternative 1 2⟩),
         (1, ⟨2, TriggerPayload.keyval 0x61 0⟩),
         (2, ⟨3, TriggerPayload.never⟩),
         (3, ⟨5, TriggerPayload.keyval 0x62 4⟩)] 0) 2 =
      some ⟨2, TriggerPayload.never⟩ ∧
    hlookup (gtk_shortcut_trigger_unref 2
        [(0, ⟨1, TriggerPayload.alternative 1 2⟩),
         (1, ⟨2, TriggerPayload.keyval 0x61 0⟩),
         (2, ⟨3, TriggerPayload.never⟩),
         (3, ⟨5, TriggerPayload.keyval 0x62 4⟩)] 0) 3 =
      some ⟨5, TriggerPayload.keyval 0x62 4⟩ := by
  have h := C9_alternative_unref_releases_children
    [(0, ⟨1, TriggerPayload.alternative 1 2⟩),
     (1, ⟨2, TriggerPayload.keyval 0x61 0⟩),
     (2, ⟨3, TriggerPayload.never⟩),
     (3, ⟨5, TriggerPayload.keyval 0x62 4⟩)]
    0 0 1 2 ⟨2, TriggerPayload.keyval 0x61 0⟩ ⟨3, TriggerPayload.never⟩
    rfl rfl rfl (by decide) (by decide) (by decide) (by decide) (by decide)
  exact ⟨h.1, h.2.1, h.2.2.1,
    (h.2.2.2 3 (by decide) (by decide) (by decide)).trans rfl⟩

/-- C10: Called with a valid `first` but an invalid `second`, the
alternative constructor returns NULL and leaves the heap untouched: no
object is created and `first`'s reference count is unchanged, so the
ownership-transferred reference on `first` is neither stored nor
released (it is leaked). -/
theorem C10_alternative_new_invalid_second_leaks_first (heap : Heap)
    (newId f : TriggerId) (obj : TriggerObj) (second : Option TriggerId)
    (hf : hlookup heap f = some obj)
    (hs : GTK_IS_SHORTCUT_TRIGGER heap second = false) :
    gtk_alternative_trigger_new heap newId (some f) second =
      (heap, none) ∧
    hlookup (gtk_alternative_trigger_new heap newId (some f) second).1 f =
      some obj := by
  have hft : GTK_IS_SHORTCUT_TRIGGER heap (some f) = true := by
    simp [GTK_IS_SHORTCUT_TRIGGER, hf]
  have h1 : gtk_alternative_trigger_new heap newId (some f) second =
      (heap, none) := by
    unfold gtk_alternative_trigger_new
    rw [hft, hs]
    simp
  exact ⟨h1, by rw [h1]; exact hf⟩

/-- Witness for C10: a singleton heap, a valid first handle at id 0
and the NULL second handle. -/
theorem C10_alternative_new_invalid_second_leaks_first_witness :
    gtk_alternative_trigger_new [(0, ⟨1, TriggerPayload.never⟩)] 5
        (some 0) none =
      ([(0, ⟨1, TriggerPayload.never⟩)], none) ∧
    hlookup (gtk_alternative_trigger_new [(0, ⟨1, TriggerPayload.never⟩)] 5
        (some 0) none).1 0 = some ⟨1, TriggerPayload.never⟩ :=
  C10_alternative_new_invalid_second_leaks_first
    [(0, ⟨1, TriggerPayload.never⟩)] 5 0 ⟨1, TriggerPayload.never⟩ none
    rfl rfl
